import Mathlib

/-!
Verification of the pythonrun_mcp server (src/index.js) against its
natural-language specification.

The development shallowly embeds the parts of the source that the claims
talk about: the execution-engine command construction and resource limits,
the error classifier, the artifact collector, the virtual-environment
manager, the cleanup (finally) block of executePython, and the
scratch-path construction.  Filesystem state is modelled explicitly as a
list of path entries; machine behaviour that lives outside the repository
(the Node child-process layer) is modelled from the spec where a claim
depends on it, and each such definition says so in its doc comment.
-/

/-! ## Basic path and string utilities -/

/-- Path join as used by the source (`join(a, b)` with a forward slash). -/
def pjoin (a b : String) : String := a ++ "/" ++ b

/-- Boolean test that `l` begins with `pat` (on character lists). -/
def listStarts (pat l : List Char) : Bool := l.take pat.length == pat

/-- Boolean test that `pre` is an initial segment of the string `s`. -/
def startsWithStr (pre s : String) : Bool := listStarts pre.data s.data

/-- Naive substring search on character lists, mirroring JS `includes`. -/
def listHasSub (pat : List Char) : List Char → Bool
  | [] => pat.isEmpty
  | c :: rest => listStarts pat (c :: rest) || listHasSub pat rest

/-- JS `s.includes(pat)`: `pat` occurs somewhere inside `s`. -/
def containsSub (s pat : String) : Bool := listHasSub pat.data s.data

/-- JS `p.split('/').pop()`: the final path segment of `p`. -/
def basenameOf (p : String) : String :=
  String.mk ((p.data.reverse.takeWhile (fun c => !(c == '/'))).reverse)

/-! ## Run-unique paths (executePython, src/index.js lines 573-583)

The source builds the artifact directory as `join(workDir, 'images')` and
the scratch program file as
`join(workDir, `temp_${Date.now()}_${Math.random().toString(36).substr(2, 9)}.py`)`.
-/

/-- Artifact (image-capture) directory of a run: `join(workDir, 'images')`. -/
def imageDirOf (workDir : String) : String := pjoin workDir "images"

/-- Scratch program file name of a run: `temp_` + timestamp + `_` + random
suffix + `.py`. -/
def tempFileNameOf (nowMs : Nat) (rand : String) : String :=
  "temp_" ++ toString nowMs ++ "_" ++ rand ++ ".py"

/-- Full scratch program path of a run. -/
def tempFileOf (workDir : String) (nowMs : Nat) (rand : String) : String :=
  pjoin workDir (tempFileNameOf nowMs rand)

/-! ## Execution command and platform memory limits
(executePython, src/index.js lines 596-624) -/

/-- Platform family as reported by `process.platform`; `darwin` stands for
every platform that is neither `linux` nor `win32`, since the source only
tests for those two. -/
inductive OsPlatform
  | linux
  | win32
  | darwin
deriving DecidableEq

/-- Double-quote a path for the shell, as the source template literals do. -/
def quoteArg (s : String) : String := "\"" ++ s ++ "\""

/-- The base command `"${pythonPath}" "${tempFile}"`. -/
def baseExecCommand (pythonPath tempFile : String) : String :=
  quoteArg pythonPath ++ " " ++ quoteArg tempFile

/-- Result of building the execution command: the shell command line and the
warnings logged while building it. -/
structure ExecPlan where
  command : String
  warnings : List String
deriving DecidableEq

/-- Command construction of executePython: on linux with a positive memory
limit the command is prefixed with `ulimit -v` (kilobytes); on win32 with a
positive memory limit a warning is logged; all other platforms fall through
with neither ceiling nor warning. -/
def planExecution (platform : OsPlatform) (maxMemoryMB : Nat)
    (pythonPath tempFile : String) : ExecPlan :=
  let base := baseExecCommand pythonPath tempFile
  if platform = OsPlatform.linux ∧ maxMemoryMB > 0 then
    { command := "ulimit -v " ++ toString (maxMemoryMB * 1024) ++ " && " ++ base,
      warnings := [] }
  else if platform = OsPlatform.win32 ∧ maxMemoryMB > 0 then
    { command := base,
      warnings := ["Memory limiting on Windows is not fully supported. Configured limit: "
        ++ toString maxMemoryMB ++ "MB"] }
  else
    { command := base, warnings := [] }

/-- Whether the built command applies the process-level virtual-memory
ceiling, i.e. begins with the `ulimit -v ` spell. -/
def hasMemoryCeiling (p : ExecPlan) : Bool := startsWithStr "ulimit -v " p.command

/-! ## Error classifier (executePython catch block, src/index.js lines 655-697) -/

/-- The `code` field of a Node exec error: a numeric exit code, the
ETIMEDOUT marker, or the UNKNOWN fallback the source substitutes. -/
inductive ExecErrCode
  | exitCode (n : Int)
  | etimedout
  | unknown
deriving DecidableEq

/-- The error metadata the catch block extracts from a failed execution. -/
structure ExecError where
  message : String
  stderr : String
  stdout : String
  code : ExecErrCode
  signal : Option String
  killed : Bool

/-- Hint attached when stderr mentions ModuleNotFoundError. -/
def hintModuleMissing : String :=
  "\n\n💡 Suggestion: Install the missing module using the python_install_package tool."

/-- Hint attached when stderr mentions SyntaxError. -/
def hintSyntaxErr : String :=
  "\n\n💡 Suggestion: Check your Python code syntax."

/-- Hint attached when stderr mentions MemoryError. -/
def hintMemoryErr : String :=
  "\n\n💡 Suggestion: Try reducing data size or increase memory limits."

/-- Hint attached when stderr mentions Permission. -/
def hintPermissionErr : String :=
  "\n\n💡 Suggestion: Check file permissions or try running with appropriate privileges."

/-- Fixed part of the timeout hint, before the configured timeout value. -/
def tmoA : String := "\n\n💡 Suggestion: Code execution timed out after "

/-- Fixed part of the timeout hint, after the configured timeout value. -/
def tmoB : String := "ms. Consider optimizing your code or increasing the timeout."

/-- Hint attached when the exec error code is ETIMEDOUT. -/
def hintTimedOut (timeoutMs : Nat) : String := tmoA ++ (toString timeoutMs ++ tmoB)

/-- Hint attached when the process was killed for a non-timeout reason. -/
def hintKilled : String :=
  "\n\n💡 Suggestion: Process was terminated, possibly due to resource limits."

/-- Error analysis of the catch block: stderr-pattern hints are computed
first, then an ETIMEDOUT code or a killed process overrides them, in that
order (the empty string means no hint). -/
def errorAnalysis (timeoutMs : Nat) (e : ExecError) : String :=
  let fromStderr :=
    if e.stderr ≠ "" then
      if containsSub e.stderr "ModuleNotFoundError" then hintModuleMissing
      else if containsSub e.stderr "SyntaxError" then hintSyntaxErr
      else if containsSub e.stderr "MemoryError" then hintMemoryErr
      else if containsSub e.stderr "Permission" then hintPermissionErr
      else ""
    else ""
  if e.code = ExecErrCode.etimedout then hintTimedOut timeoutMs
  else if e.killed then hintKilled
  else fromStderr

/-- Modelled from the spec: the promisified `exec` layer is Node library
code, not part of this repository.  Per the spec (a timeout-exceeded exit
code yields the timed-out hint) a run whose interpreter process exceeds
`timeoutMs` rejects with an error carrying the ETIMEDOUT code marker that
the source tests for. -/
def timedOutRawError (stdout stderr : String) : ExecError :=
  { message := "Command failed"
    stderr := stderr
    stdout := stdout
    code := ExecErrCode.etimedout
    signal := some "SIGTERM"
    killed := true }

/-! ## Output capture ceiling (executePython, src/index.js lines 614-653) -/

/-- Modelled from the spec: the child-process exec layer is not part of this
repository.  Per the spec, output beyond the captured-output ceiling
(`maxBuffer`, set from the configured `maxOutputSize`) is truncated rather
than hanging the call. -/
def captureChildOutput (maxBuffer : Nat) (produced : String) : String :=
  String.mk (produced.data.take maxBuffer)

/-- Default captured-output ceiling from Config (`maxOutputSize`, 10 MB). -/
def defaultMaxOutputSize : Nat := 10000000

/-- A tool response: the rendered text and the isError flag. -/
structure ToolResponse where
  text : String
  isError : Bool

/-- Success-path text assembly of executePython (lines 643-649). -/
def buildRunText (stdout stderr : String) : String :=
  let r1 := if stdout ≠ "" then "Output:\n" ++ stdout else ""
  let r2 :=
    if stderr ≠ "" then r1 ++ (if r1 ≠ "" then "\n" else "") ++ "Error/Warning:\n" ++ stderr
    else r1
  if r2 = "" then "Code executed successfully with no output" else r2

/-- The zero-exit path of executePython with the output ceiling applied:
captured streams are truncated to the ceiling and a non-error response is
returned. -/
def runWithOutputCeiling (maxOutputSize : Nat) (producedStdout producedStderr : String) :
    ToolResponse :=
  let stdout := captureChildOutput maxOutputSize producedStdout
  let stderr := captureChildOutput maxOutputSize producedStderr
  { text := buildRunText stdout stderr, isError := false }

/-! ## Artifact collector (collectImages, src/index.js lines 902-1002) -/

/-- A file discovered by the image glob: its path, its byte size as
reported by stat, and the base64 rendering of its contents (empty when the
file is empty). -/
structure ImgFile where
  path : String
  size : Nat
  base64Data : String
deriving DecidableEq

/-- A collected artifact: base64 payload plus MIME type. -/
structure CollectedImage where
  data : String
  mimeType : String
deriving DecidableEq

/-- Characters of the base64 body alphabet `[A-Za-z0-9+/]`. -/
def isBase64Char (c : Char) : Bool :=
  c.isAlpha || c.isDigit || c == '+' || c == '/'

/-- The strict validation regex `^[A-Za-z0-9+/]*={0,2}$`: body characters
followed by at most two padding `=` characters. -/
def isBase64Format (s : String) : Bool :=
  let body := s.data.takeWhile isBase64Char
  let pad := s.data.drop body.length
  decide (pad.length ≤ 2) && pad.all (fun c => c == '=')

/-- Extension of a path: JS `path.split('.').pop().toLowerCase()`. -/
def extOf (p : String) : String :=
  String.mk (((p.data.reverse.takeWhile (fun c => !(c == '.'))).reverse).map Char.toLower)

/-- MIME type table of collectImages; unrecognized extensions default to
`image/png`. -/
def mimeTypeOf (p : String) : String :=
  let ext := extOf p
  if ext = "jpg" ∨ ext = "jpeg" then "image/jpeg"
  else if ext = "gif" then "image/gif"
  else if ext = "svg" then "image/svg+xml"
  else "image/png"

/-- Per-file validation pipeline of collectImages: skip files under 100
bytes, skip empty content, skip content failing the base64 format check,
otherwise emit the artifact. -/
def processFile (f : ImgFile) : Option CollectedImage :=
  if f.size < 100 then none
  else if f.base64Data.length = 0 then none
  else if isBase64Format f.base64Data = true then
    some { data := f.base64Data, mimeType := mimeTypeOf f.path }
  else none

/-- A discovered file that survives every validation step. -/
def isValidImage (f : ImgFile) : Bool :=
  decide (100 ≤ f.size) && !(f.base64Data.length == 0) && isBase64Format f.base64Data

/-- Result of collectImages: the artifacts and the console notes relevant
to the cap (the directory-missing note and the first-3-of-N note). -/
structure CollectResult where
  images : List CollectedImage
  logs : List String
deriving DecidableEq

/-- collectImages: if the directory is missing return nothing; otherwise
slice the discovered list to its first 3 entries, run the per-file
validation on that slice only, and when more than 3 files were discovered
log how many were shown out of the total. -/
def collectImages (dirExists : Bool) (files : List ImgFile) : CollectResult :=
  if dirExists = false then
    { images := [], logs := ["Image directory does not exist"] }
  else
    let limited := files.take 3
    let imgs := limited.filterMap processFile
    let note :=
      if files.length > 3 then
        ["Note: Showing first 3 of " ++ toString files.length ++ " generated images"]
      else []
    { images := imgs, logs := note }

/-- Five discovered files of which the first is below the 100-byte
threshold and the remaining four are valid. -/
def demoFilesA : List ImgFile :=
  [⟨"plot_0.png", 50, "AAAA"⟩, ⟨"plot_1.png", 200, "BBBB"⟩, ⟨"plot_2.png", 200, "CCCC"⟩,
   ⟨"plot_3.png", 200, "DDDD"⟩, ⟨"plot_4.png", 200, "EEEE"⟩]

/-- Five discovered files of which the first is an 80-byte incomplete write
and the remaining four are valid. -/
def demoFilesB : List ImgFile :=
  [⟨"pil_0.png", 80, "AAAA"⟩, ⟨"pil_1.png", 150, "FFFF"⟩, ⟨"pil_2.png", 150, "GGGG"⟩,
   ⟨"pil_3.png", 150, "HHHH"⟩, ⟨"pil_4.png", 150, "JJJJ"⟩]

/-- Five discovered files, all of them valid. -/
def demoFilesC : List ImgFile :=
  [⟨"plot_0.png", 120, "KKKK"⟩, ⟨"plot_1.png", 120, "LLLL"⟩, ⟨"plot_2.png", 120, "MMMM"⟩,
   ⟨"plot_3.png", 120, "NNNN"⟩, ⟨"plot_4.png", 120, "PPPP"⟩]

/-! ## Environment manager (ensureVirtualEnvironment, getPythonPath,
getPipPath; src/index.js lines 430-547) -/

/-- The observable state of the virtual-environment directory.  `pipOk`
folds the two getPipPath probes (exists and executable) into one flag;
`probeOk` records whether running the interpreter with `--version`
succeeds.  The executability probes are the ones run on the posix family
(on win32 the source skips the X_OK access check because that bit does not
exist there). -/
structure VenvFs where
  dirExists : Bool
  interpExists : Bool
  interpExecutable : Bool
  pipOk : Bool
  probeOk : Bool
deriving DecidableEq

/-- Filesystem writes a manager operation can perform, in order. -/
inductive VenvWrite
  | createVenv
  | rmVenvDir
deriving DecidableEq

/-- A fully functional environment state. -/
def freshVenv : VenvFs :=
  { dirExists := true, interpExists := true, interpExecutable := true,
    pipOk := true, probeOk := true }

/-- The creation arm of ensureVirtualEnvironment: discover a toolchain
(python3 falling back to python, fatal if neither resolves), run
`python -m venv` (whose success is the `creationOk` flag and whose
resulting directory state is `created`), then verify the new environment
through getPythonPath and getPipPath, which throw if the interpreter or
pip binary is missing or not executable. -/
def createVirtualEnvironment (toolchainFound creationOk : Bool) (created : VenvFs) :
    Except String (VenvFs × List VenvWrite) :=
  if toolchainFound = false then
    Except.error "Neither python3 nor python found in PATH. Please install Python 3.7+ and ensure it is in your PATH."
  else if creationOk = false then
    Except.error "Failed to create virtual environment"
  else if (created.interpExists && created.interpExecutable) = false then
    Except.error "Python executable not found. Virtual environment may not be properly set up."
  else if created.pipOk = false then
    Except.error "Pip executable not found. Virtual environment may not be properly set up."
  else Except.ok (created, [VenvWrite.createVenv])

/-- ensureVirtualEnvironment: if the directory is absent, create.  If it is
present, probe it (getPythonPath checks plus a `--version` run); on any
probe failure remove the whole directory and recurse into creation.  The
returned list records the filesystem writes performed, in order; a pure
probe writes nothing. -/
def ensureVirtualEnvironment (toolchainFound creationOk : Bool) (created fs : VenvFs) :
    Except String (VenvFs × List VenvWrite) :=
  if fs.dirExists = false then
    createVirtualEnvironment toolchainFound creationOk created
  else if ((fs.interpExists && fs.interpExecutable) && fs.probeOk) = true then
    Except.ok (fs, [])
  else
    Except.map (fun r => (r.1, VenvWrite.rmVenvDir :: r.2))
      (createVirtualEnvironment toolchainFound creationOk created)

/-! ## Concurrency model for environment mutation
(executePython lines 549-571, installPackages lines 1004-1034,
resetEnvironment lines 1059-1081)

The source holds no lock of any kind around these operations; every await
inside them is a Node event-loop yield point, so the atomic filesystem
steps of two overlapping requests may interleave in any order consistent
with each request's own program order.  The admitted schedules of two
concurrent operations are therefore exactly the interleavings of their
step lists. -/

/-- Atomic environment steps appearing in the mutating operations. -/
inductive EnvAction
  | probeEnv
  | rmEnvDir
  | createEnvDir
  | pipInstall
deriving DecidableEq

/-- All interleavings of two sequences, by structural recursion on a fuel
argument so that the function evaluates inside the kernel; the wrapper
below supplies enough fuel to never hit the out-of-fuel arm. -/
def interleavingsAux {α : Type} : Nat → List α → List α → List (List α)
  | 0, _, _ => []
  | _ + 1, [], ys => [ys]
  | _ + 1, x :: xs, [] => [x :: xs]
  | n + 1, x :: xs, y :: ys =>
    ((interleavingsAux n xs (y :: ys)).map (fun s => x :: s)) ++
    ((interleavingsAux n (x :: xs) ys).map (fun s => y :: s))

/-- All interleavings of two sequences. -/
def interleavings {α : Type} (xs ys : List α) : List (List α) :=
  interleavingsAux (xs.length + ys.length) xs ys

/-- Steps of installPackages on an existing valid environment: the ensure
probe, then the pip install child process. -/
def installPackagesTrace : List EnvAction := [EnvAction.probeEnv, EnvAction.pipInstall]

/-- Steps of resetEnvironment on an existing environment: remove the venv
directory, then ensure recreates it. -/
def resetEnvironmentTrace : List EnvAction := [EnvAction.rmEnvDir, EnvAction.createEnvDir]

/-- A schedule is serialized when one operation completes before the other
begins. -/
def serializedSchedule (s ta tb : List EnvAction) : Prop := s = ta ++ tb ∨ s = tb ++ ta

/-- Whether the venv directory is present after an atomic step. -/
def venvPresentAfter (present : Bool) : EnvAction → Bool
  | EnvAction.rmEnvDir => false
  | EnvAction.createEnvDir => true
  | _ => present

/-- Whether a schedule makes the pip install step run while the venv
directory is absent (starting from a present environment). -/
def pipRunsWithoutVenv (s : List EnvAction) : Bool :=
  (s.foldl
    (fun (acc : Bool × Bool) a =>
      (venvPresentAfter acc.1 a,
       acc.2 || (decide (a = EnvAction.pipInstall) && !acc.1)))
    (true, false)).2

/-- A concrete admitted interleaving: the install request probes the valid
environment, the reset request removes the directory, the install request
then runs pip against the removed directory, and the reset request
recreates it. -/
def badSchedule : List EnvAction :=
  [EnvAction.probeEnv, EnvAction.rmEnvDir, EnvAction.pipInstall, EnvAction.createEnvDir]

/-! ## Cleanup block of executePython (finally, src/index.js lines 708-767) -/

/-- A file or directory entry of the modelled workspace filesystem: its
path and its modification time in milliseconds. -/
structure FsEntry where
  path : String
  mtimeMs : Nat
deriving DecidableEq

/-- existsSync on the modelled filesystem. -/
def existsSync (fs : List FsEntry) (p : String) : Bool :=
  fs.any (fun e => e.path == p)

/-- One fault-tolerant unlink task: a fault is caught and turned into a
warning (the entry stays), otherwise the entry at that path is removed. -/
def unlinkTask (faults : String → Bool) (p : String) (fs : List FsEntry) :
    List FsEntry × List String :=
  if faults p then (fs, ["Failed to delete " ++ p])
  else (fs.filter (fun e => !(e.path == p)), [])

/-- The fault-tolerant recursive removal of the image directory: removes
the directory entry and everything under it, or degrades to a warning. -/
def rmDirTask (faults : String → Bool) (dir : String) (fs : List FsEntry) :
    List FsEntry × List String :=
  if faults dir then (fs, ["Failed to clean up image directory " ++ dir])
  else (fs.filter (fun e => !((e.path == dir) || startsWithStr (dir ++ "/") e.path)), [])

/-- Word characters of the orphan-file regex (`\w`). -/
def isWordChar (c : Char) : Bool := c.isAlphanum || c == '_'

/-- The orphan naming convention `/^temp_\d+_\w+\.py$/` as a deterministic
recognizer: `temp_`, one or more digits, `_`, one or more word characters,
`.py`. -/
def isTempName (s : String) : Bool :=
  if s.data.take 5 == "temp_".data then
    let rest := s.data.drop 5
    let ds := rest.takeWhile Char.isDigit
    match rest.drop ds.length with
    | '_' :: rest2 =>
      let ws := rest2.takeWhile isWordChar
      !ds.isEmpty && !ws.isEmpty && (rest2.drop ws.length == ".py".data)
    | _ => false
  else false

/-- Whether a path is a direct child of the given directory (a readdir
result). -/
def isDirectChild (dir p : String) : Bool := p == pjoin dir (basenameOf p)

/-- Staleness threshold of the orphan sweep: one hour in milliseconds. -/
def staleThresholdMs : Nat := 60 * 60 * 1000

/-- The orphan sweep: scan the workspace snapshot for stale scratch files
matching the naming convention that do not belong to the current run and
are older than the staleness threshold, and unlink each with its own fault
tolerance.  `scanFs` is the snapshot the readdir and stat calls observe;
deletions apply to `applyFs`. -/
def sweepOrphans (faults : String → Bool) (workDir tempFile : String) (now : Nat)
    (scanFs applyFs : List FsEntry) : List FsEntry × List String :=
  let olds := scanFs.filter (fun e =>
    isDirectChild workDir e.path &&
    isTempName (basenameOf e.path) &&
    !(basenameOf e.path == basenameOf tempFile) &&
    decide (now - e.mtimeMs > staleThresholdMs))
  olds.foldl
    (fun acc e =>
      ((unlinkTask faults e.path acc.1).1, acc.2 ++ (unlinkTask faults e.path acc.1).2))
    (applyFs, [])

/-- The conditional unlink of the scratch program file; the existsSync
guard reads the pre-cleanup snapshot, as in the source. -/
def cleanupTempTask (faults : String → Bool) (tempFile : String)
    (snapshot applyFs : List FsEntry) : List FsEntry × List String :=
  if existsSync snapshot tempFile then unlinkTask faults tempFile applyFs
  else (applyFs, [])

/-- The conditional recursive removal of the image directory; the
existsSync guard reads the pre-cleanup snapshot, as in the source, where
both guards are evaluated before the tasks start. -/
def cleanupImagesTask (faults : String → Bool) (imageDir : String)
    (snapshot applyFs : List FsEntry) : List FsEntry × List String :=
  if existsSync snapshot imageDir then rmDirTask faults imageDir applyFs
  else (applyFs, [])

/-- The whole finally block: existence of the scratch file and of the image
directory is checked on the pre-cleanup snapshot, then the unlink task, the
recursive image-directory removal, and the orphan sweep run, each
independently fault-tolerant; warnings accumulate and are never thrown. -/
def runCleanup (faults : String → Bool) (tempFile imageDir workDir : String)
    (now : Nat) (fs : List FsEntry) : List FsEntry × List String :=
  let s1 := cleanupTempTask faults tempFile fs fs
  let s2 := cleanupImagesTask faults imageDir fs s1.1
  let s3 := sweepOrphans faults workDir tempFile now fs s2.1
  (s3.1, s1.2 ++ s2.2 ++ s3.2)

/-- Outcome of a run before cleanup: zero exit, non-zero exit, or timeout. -/
inductive RunOutcome
  | success (stdout stderr : String)
  | failure (text : String)
  | timeout (text : String)
deriving DecidableEq

/-- executePython from the point the outcome is determined: the finally
block runs unconditionally and the already-determined outcome is returned
unchanged, whatever the cleanup faults were. -/
def executePythonFinally (faults : String → Bool) (o : RunOutcome)
    (tempFile imageDir workDir : String) (now : Nat) (fs : List FsEntry) :
    RunOutcome × List FsEntry × List String :=
  let c := runCleanup faults tempFile imageDir workDir now fs
  (o, c.1, c.2)

/-- A concrete workspace for witnesses: the run scratch file, the image
directory, one artifact in it, and one fresh foreign scratch file. -/
def demoFs : List FsEntry :=
  [⟨"ws/temp_5_abc.py", 0⟩, ⟨"ws/images", 0⟩, ⟨"ws/images/plot_0.png", 0⟩,
   ⟨"ws/temp_1_zzz.py", 0⟩]

/-! ## Helper lemmas -/

theorem string_eq_of_data_eq {s t : String} (h : s.data = t.data) : s = t := by
  cases s; cases t; exact congrArg String.mk h

theorem string_ne_of_index {s t : String} (i : Nat)
    (h : ¬ s.data[i]? = t.data[i]?) : s ≠ t := fun he => h (by rw [he])

theorem dquote_data : ("\"" : String).data = ['"'] := rfl

theorem space_data : (" " : String).data = [' '] := rfl

theorem underscore_data : ("_" : String).data = ['_'] := rfl

theorem hintTimedOut_data (t : Nat) :
    (hintTimedOut t).data = tmoA.data ++ ((toString t).data ++ tmoB.data) := by
  simp [hintTimedOut, String.data_append]

theorem hintTimedOut_index_small (t : Nat) (i : Nat) (hi : i < tmoA.data.length) :
    (hintTimedOut t).data[i]? = tmoA.data[i]? := by
  rw [hintTimedOut_data]
  exact List.getElem?_append_left hi

theorem hintTimedOut_ne_hintKilled (t : Nat) : hintTimedOut t ≠ hintKilled := by
  apply string_ne_of_index 16
  rw [hintTimedOut_index_small t 16 (by decide)]
  decide

theorem hintTimedOut_ne_hintModuleMissing (t : Nat) : hintTimedOut t ≠ hintModuleMissing := by
  apply string_ne_of_index 16
  rw [hintTimedOut_index_small t 16 (by decide)]
  decide

theorem hintTimedOut_ne_hintSyntaxErr (t : Nat) : hintTimedOut t ≠ hintSyntaxErr := by
  apply string_ne_of_index 17
  rw [hintTimedOut_index_small t 17 (by decide)]
  decide

theorem hintTimedOut_ne_hintMemoryErr (t : Nat) : hintTimedOut t ≠ hintMemoryErr := by
  apply string_ne_of_index 16
  rw [hintTimedOut_index_small t 16 (by decide)]
  decide

theorem hintTimedOut_ne_hintPermissionErr (t : Nat) : hintTimedOut t ≠ hintPermissionErr := by
  apply string_ne_of_index 17
  rw [hintTimedOut_index_small t 17 (by decide)]
  decide

theorem hintTimedOut_ne_empty (t : Nat) : hintTimedOut t ≠ "" := by
  apply string_ne_of_index 0
  rw [hintTimedOut_index_small t 0 (by decide)]
  decide

theorem baseExecCommand_data (py tf : String) :
    (baseExecCommand py tf).data =
      '"' :: (py.data ++ ('"' :: (' ' :: ('"' :: (tf.data ++ ['"']))))) := by
  simp [baseExecCommand, quoteArg, String.data_append, dquote_data, space_data]

theorem baseExecCommand_no_ulimit (py tf : String) :
    startsWithStr "ulimit -v " (baseExecCommand py tf) = false := by
  unfold startsWithStr listStarts
  rw [baseExecCommand_data]
  rw [show ("ulimit -v " : String).data =
    'u' :: 'l' :: 'i' :: 'm' :: 'i' :: 't' :: ' ' :: '-' :: 'v' :: ' ' :: [] from rfl]
  rw [show ∀ r : List Char, List.take ('u' :: 'l' :: 'i' :: 'm' :: 'i' :: 't' :: ' ' :: '-' :: 'v' :: ' ' :: []).length ('"' :: r) = '"' :: List.take 9 r from fun r => rfl]
  rw [List.cons_beq_cons]
  rw [show (('"' : Char) == 'u') = false from rfl]
  rw [Bool.false_and]

theorem split_at_first_underscore (xs1 : List Char) :
    ∀ (xs2 zs1 zs2 : List Char), '_' ∉ xs1 → '_' ∉ xs2 →
      xs1 ++ '_' :: zs1 = xs2 ++ '_' :: zs2 → xs1 = xs2 ∧ zs1 = zs2 := by
  induction xs1 with
  | nil =>
    intro xs2 zs1 zs2 h1 h2 h
    cases xs2 with
    | nil => simpa using h
    | cons c t =>
      simp at h
      have hm : ('_' : Char) ∈ c :: t := by rw [h.1]; exact List.mem_cons_self _ _
      exact absurd hm h2
  | cons c t ih =>
    intro xs2 zs1 zs2 h1 h2 h
    cases xs2 with
    | nil =>
      simp at h
      have hm : ('_' : Char) ∈ c :: t := by rw [← h.1]; exact List.mem_cons_self _ _
      exact absurd hm h1
    | cons c2 t2 =>
      simp at h
      simp [List.mem_cons] at h1 h2
      obtain ⟨ht, hz⟩ := ih t2 zs1 zs2 h1.2 h2.2 h.2
      exact ⟨by rw [h.1, ht], hz⟩

/-! ## Claim theorems -/

/-- Claim C4 (code bug): the spec requires that two concurrently issued
mutating operations on the same environment path be serialized, but the
source takes no lock, so the admitted schedules are all interleavings of
the operations' steps.  The concrete schedule `badSchedule` is admitted,
is not serialized, and makes pip install run while the reset has removed
the venv directory — whereas every serialized schedule keeps pip away from
an absent directory. -/
theorem concurrent_mutation_not_serialized :
    badSchedule ∈ interleavings installPackagesTrace resetEnvironmentTrace ∧
    ¬ serializedSchedule badSchedule installPackagesTrace resetEnvironmentTrace ∧
    pipRunsWithoutVenv badSchedule = true ∧
    (∀ s, serializedSchedule s installPackagesTrace resetEnvironmentTrace →
      pipRunsWithoutVenv s = false) := by
  refine ⟨by decide, ?_, by decide, ?_⟩
  · unfold serializedSchedule
    decide
  · intro s hs
    rcases hs with h | h <;> subst h <;> decide

/-- Claim C5 counterexample: two distinct runs (different timestamps and
different random suffixes, hence different scratch paths) nevertheless get
the same artifact directory, refuting that the artifact directory path is
unique per run. -/
theorem artifactDir_shared_counterexample :
    tempFileOf "/ws" 1000 "abc" ≠ tempFileOf "/ws" 2000 "xyz" ∧
    imageDirOf "/ws" = imageDirOf "/ws" := by
  exact ⟨by decide, rfl⟩

/-- Claim C5 (amended): scratch program paths are unique per run — two runs
whose rendered timestamps or random suffixes differ get different scratch
paths (timestamp renderings contain no underscore, which makes the
`temp_TIME_RAND.py` encoding injective) — but the artifact directory is the
same shared `workDir/images` path for every run. -/
theorem scratch_unique_artifactDir_shared (w r1 r2 : String) (t1 t2 : Nat)
    (hu1 : '_' ∉ (toString t1).data) (hu2 : '_' ∉ (toString t2).data)
    (hne : toString t1 ≠ toString t2 ∨ r1 ≠ r2) :
    tempFileOf w t1 r1 ≠ tempFileOf w t2 r2 ∧ imageDirOf w = pjoin w "images" := by
  refine ⟨?_, rfl⟩
  intro he
  have hd := congrArg String.data he
  simp only [tempFileOf, pjoin, tempFileNameOf, String.data_append, List.append_assoc] at hd
  have h1 := List.append_cancel_left hd
  have h2 := List.append_cancel_left h1
  have h3 := List.append_cancel_left h2
  rw [List.singleton_append] at h3
  obtain ⟨hT, hR⟩ := split_at_first_underscore _ _ _ _ hu1 hu2 h3
  have hTs : toString t1 = toString t2 := string_eq_of_data_eq hT
  have hRs : r1 = r2 := string_eq_of_data_eq (List.append_cancel_right hR)
  rcases hne with h | h
  · exact h hTs
  · exact h hRs

/-- Claim C5 witness: hypotheses of the amended theorem discharged at a
concrete pair of runs differing only in timestamp. -/
theorem scratch_unique_artifactDir_shared_witness :
    ('_' ∉ (toString 1000).data) ∧ tempFileOf "ws" 1000 "abc" ≠ tempFileOf "ws" 1001 "abc" :=
  ⟨by decide,
   (scratch_unique_artifactDir_shared "ws" "abc" "abc" 1000 1001 (by decide) (by decide)
      (Or.inl (by decide))).1⟩

/-- Claim C6: with the captured-output ceiling applied (modelled from the
spec, since the exec layer is Node library code), a run whose child
produces more output than the ceiling still completes: the captured output
is truncated to at most the ceiling and the zero-exit response is not an
error. -/
theorem output_truncated_run_completes (m : Nat) (producedStdout producedStderr : String) :
    (captureChildOutput m producedStdout).length ≤ m ∧
    (captureChildOutput defaultMaxOutputSize producedStdout).length ≤ defaultMaxOutputSize ∧
    (runWithOutputCeiling m producedStdout producedStderr).isError = false := by
  refine ⟨?_, ?_, rfl⟩ <;>
    · unfold captureChildOutput
      rw [show ∀ l : List Char, (String.mk l).length = l.length from fun l => rfl]
      rw [List.length_take]
      omega

/-- Claim C7 counterexample: on a platform that is neither linux nor win32
(for example darwin) and with a positive configured memory limit, the built
command applies no virtual-memory ceiling and no warning is logged —
enforcement is silently absent. -/
theorem memory_limit_silent_on_darwin :
    hasMemoryCeiling
      (planExecution OsPlatform.darwin 512 "/ws/venv/bin/python" "/ws/temp_1_a.py") = false ∧
    (planExecution OsPlatform.darwin 512 "/ws/venv/bin/python" "/ws/temp_1_a.py").warnings
      = [] := by
  decide

/-- Claim C7 (amended): with a positive memory limit, linux gets a ulimit
virtual-memory ceiling (in kilobytes, derived from maxMemoryMB) and no
warning; win32 gets no ceiling but a logged warning; every other platform
gets neither a ceiling nor a warning. -/
theorem memory_limit_per_platform (platform : OsPlatform) (mm : Nat)
    (py tf : String) (hmm : 0 < mm) :
    (platform = OsPlatform.linux →
      (planExecution platform mm py tf).command =
        "ulimit -v " ++ toString (mm * 1024) ++ " && " ++ baseExecCommand py tf ∧
      (planExecution platform mm py tf).warnings = []) ∧
    (platform = OsPlatform.win32 →
      hasMemoryCeiling (planExecution platform mm py tf) = false ∧
      (planExecution platform mm py tf).warnings =
        ["Memory limiting on Windows is not fully supported. Configured limit: "
          ++ toString mm ++ "MB"]) ∧
    (platform = OsPlatform.darwin →
      hasMemoryCeiling (planExecution platform mm py tf) = false ∧
      (planExecution platform mm py tf).warnings = []) := by
  have hplan : ∀ (q : OsPlatform), planExecution q mm py tf =
      if q = OsPlatform.linux ∧ mm > 0 then
        { command := "ulimit -v " ++ toString (mm * 1024) ++ " && " ++ baseExecCommand py tf,
          warnings := [] }
      else if q = OsPlatform.win32 ∧ mm > 0 then
        { command := baseExecCommand py tf,
          warnings := ["Memory limiting on Windows is not fully supported. Configured limit: "
            ++ toString mm ++ "MB"] }
      else { command := baseExecCommand py tf, warnings := [] } := fun q => rfl
  refine ⟨?_, ?_, ?_⟩ <;> rintro rfl
  · rw [hplan, if_pos ⟨rfl, hmm⟩]
    exact ⟨rfl, rfl⟩
  · unfold hasMemoryCeiling
    rw [hplan, if_neg (fun h => by cases h.1), if_pos ⟨rfl, hmm⟩]
    exact ⟨baseExecCommand_no_ulimit py tf, rfl⟩
  · unfold hasMemoryCeiling
    rw [hplan, if_neg (fun h => by cases h.1), if_neg (fun h => by cases h.1)]
    exact ⟨baseExecCommand_no_ulimit py tf, rfl⟩

/-- Claim C7 witness: the amended theorem applied on win32 with limit 512. -/
theorem memory_limit_per_platform_witness :
    (planExecution OsPlatform.win32 512 "/p" "/t").warnings =
      ["Memory limiting on Windows is not fully supported. Configured limit: 512MB"] := by
  have h := (memory_limit_per_platform OsPlatform.win32 512 "/p" "/t" (by decide)).2.1 rfl
  rw [h.2]
  decide

/-- Claim C8 counterexample: a directory whose discovered files contain 4
valid images (more than 3) but whose first discovered file is invalid
yields only 2 artifacts, not 3. -/
theorem collect_cap_counterexample :
    (demoFilesA.filter isValidImage).length = 4 ∧
    (collectImages true demoFilesA).images.length = 2 := by
  decide

/-- Claim C10: collectImages truncates the discovered list to the first 3
files before validating; concretely, a directory whose first discovered
file is an 80-byte incomplete write while 4 valid files follow contains at
least 3 valid images yet returns fewer than 3 artifacts. -/
theorem collect_truncate_before_validate :
    processFile ⟨"pil_0.png", 80, "AAAA"⟩ = none ∧
    3 ≤ (demoFilesB.filter isValidImage).length ∧
    (collectImages true demoFilesB).images.length < 3 ∧
    (collectImages true demoFilesB).images = (demoFilesB.take 3).filterMap processFile := by
  refine ⟨by decide, by decide, by decide, by decide⟩

/-- Claim C3: a run whose interpreter process exceeds the configured
timeout — modelled, per the spec, as the exec layer rejecting with the
ETIMEDOUT code marker the source tests for — is classified with the
timed-out hint, whose fixed text says the code timed out and suggests
optimizing the code or increasing the timeout; that hint is distinct from
every hint a non-timeout failure can receive (the stderr-pattern hints, the
no-hint empty string, and the killed-process hint). -/
theorem timeout_outcome_distinct (t : Nat) (so se : String) :
    errorAnalysis t (timedOutRawError so se) = hintTimedOut t ∧
    containsSub tmoA "timed out" = true ∧
    containsSub tmoB "optimizing your code or increasing the timeout" = true ∧
    (∀ e : ExecError, e.code ≠ ExecErrCode.etimedout → e.killed = false →
      errorAnalysis t e ≠ hintTimedOut t) ∧
    (∀ e : ExecError, e.code ≠ ExecErrCode.etimedout → e.killed = true →
      errorAnalysis t e = hintKilled ∧ hintKilled ≠ hintTimedOut t) := by
  refine ⟨by simp [errorAnalysis, timedOutRawError], by decide, by decide, ?_, ?_⟩
  · intro e hc hk
    simp only [errorAnalysis]
    rw [if_neg hc, if_neg (by rw [hk]; simp)]
    split
    · split
      · exact Ne.symm (hintTimedOut_ne_hintModuleMissing t)
      · split
        · exact Ne.symm (hintTimedOut_ne_hintSyntaxErr t)
        · split
          · exact Ne.symm (hintTimedOut_ne_hintMemoryErr t)
          · split
            · exact Ne.symm (hintTimedOut_ne_hintPermissionErr t)
            · exact Ne.symm (hintTimedOut_ne_empty t)
    · exact Ne.symm (hintTimedOut_ne_empty t)
  · intro e hc hk
    refine ⟨?_, Ne.symm (hintTimedOut_ne_hintKilled t)⟩
    simp only [errorAnalysis]
    rw [if_neg hc, if_pos hk]

/-- Claim C3 witness: the theorem applied at the default 30000 ms timeout,
with a concrete timed-out error and a concrete killed-for-another-reason
error. -/
theorem timeout_outcome_distinct_witness :
    errorAnalysis 30000 (timedOutRawError "" "") = hintTimedOut 30000 ∧
    errorAnalysis 30000
      { message := "m", stderr := "", stdout := "", code := ExecErrCode.unknown,
        signal := none, killed := true } = hintKilled :=
  ⟨(timeout_outcome_distinct 30000 "" "").1,
   ((timeout_outcome_distinct 30000 "" "").2.2.2.2
      { message := "m", stderr := "", stdout := "", code := ExecErrCode.unknown,
        signal := none, killed := true } (by decide) rfl).1⟩

theorem createVirtualEnvironment_ok (tc ck : Bool) (created e : VenvFs)
    (ws : List VenvWrite)
    (h : createVirtualEnvironment tc ck created = Except.ok (e, ws)) :
    e = created ∧ ws = [VenvWrite.createVenv] ∧
    created.interpExists = true ∧ created.interpExecutable = true := by
  unfold createVirtualEnvironment at h
  split at h
  · simp at h
  · split at h
    · simp at h
    · split at h
      · simp at h
      · split at h
        · simp at h
        · rename_i htc hck hie hpip
          rw [Except.ok.injEq, Prod.mk.injEq] at h
          obtain ⟨he, hw⟩ := h
          refine ⟨he.symm, hw.symm, ?_, ?_⟩
          · cases hb : created.interpExists
            · rw [hb] at hie
              simp at hie
            · rfl
          · cases hb : created.interpExecutable
            · rw [hb] at hie
              simp at hie
            · rfl

/-- Claim C2: whenever ensureVirtualEnvironment returns normally, the
interpreter binary exists and is executable (both were probed on the path
that produced the result); and when the directory was present but the
probe failed, the writes performed are exactly a full removal followed by
a creation from scratch, ending in the freshly created state. -/
theorem ensureVirtualEnvironment_valid_after (tc ck : Bool) (created fs fs' : VenvFs)
    (ws : List VenvWrite)
    (h : ensureVirtualEnvironment tc ck created fs = Except.ok (fs', ws)) :
    fs'.interpExists = true ∧ fs'.interpExecutable = true ∧
    (fs.dirExists = true →
      ((fs.interpExists && fs.interpExecutable) && fs.probeOk) = false →
      ws = [VenvWrite.rmVenvDir, VenvWrite.createVenv] ∧ fs' = created) := by
  unfold ensureVirtualEnvironment at h
  split at h
  · rename_i hdir
    obtain ⟨he, hw, h1, h2⟩ := createVirtualEnvironment_ok tc ck created fs' ws h
    subst he
    refine ⟨h1, h2, ?_⟩
    intro hd _
    rw [hdir] at hd
    cases hd
  · rename_i hdir
    split at h
    · rename_i hvalid
      rw [Except.ok.injEq, Prod.mk.injEq] at h
      obtain ⟨hfs, hws⟩ := h
      subst hfs
      have hv := hvalid
      rw [Bool.and_eq_true, Bool.and_eq_true] at hv
      refine ⟨hv.1.1, hv.1.2, ?_⟩
      intro hd hbad
      rw [hvalid] at hbad
      cases hbad
    · rename_i hnotvalid
      cases hc : createVirtualEnvironment tc ck created with
      | error msg =>
        rw [hc] at h
        simp [Except.map] at h
      | ok p =>
        rw [hc] at h
        simp only [Except.map, Except.ok.injEq, Prod.mk.injEq] at h
        obtain ⟨hfsp, hwsp⟩ := h
        obtain ⟨he, hw, h1, h2⟩ :=
          createVirtualEnvironment_ok tc ck created p.1 p.2 (by rw [hc])
        refine ⟨?_, ?_, ?_⟩
        · rw [← hfsp, he, h1]
        · rw [← hfsp, he, h2]
        · intro hd hbad
          refine ⟨?_, ?_⟩
          · rw [← hwsp, hw]
          · rw [← hfsp, he]

/-- Claim C2 witness: a present-but-corrupted environment (interpreter not
executable) is fully removed and recreated, and the resulting state has a
present and executable interpreter. -/
theorem ensureVirtualEnvironment_valid_after_witness :
    ensureVirtualEnvironment true true freshVenv
      { dirExists := true, interpExists := true, interpExecutable := false,
        pipOk := false, probeOk := false } =
      Except.ok (freshVenv, [VenvWrite.rmVenvDir, VenvWrite.createVenv]) ∧
    freshVenv.interpExists = true ∧ freshVenv.interpExecutable = true := by
  have h : ensureVirtualEnvironment true true freshVenv
      { dirExists := true, interpExists := true, interpExecutable := false,
        pipOk := false, probeOk := false } =
      Except.ok (freshVenv, [VenvWrite.rmVenvDir, VenvWrite.createVenv]) := rfl
  have hk := ensureVirtualEnvironment_valid_after true true freshVenv
    { dirExists := true, interpExists := true, interpExecutable := false,
      pipOk := false, probeOk := false } freshVenv
    [VenvWrite.rmVenvDir, VenvWrite.createVenv] h
  exact ⟨h, hk.1, hk.2.1⟩

/-- Claim C9: ensureVirtualEnvironment is idempotent — whatever state a
successful call returned, an immediately following call performs no
filesystem writes (its write list is empty, i.e. it only probes) and
returns the same environment state.  The two hypotheses record that a
freshly created environment is present on disk and answers the version
probe, which is what `python -m venv` guarantees for the state it leaves
behind. -/
theorem ensure_idempotent (tc ck : Bool) (created fs fs' : VenvFs) (ws : List VenvWrite)
    (hcd : created.dirExists = true) (hcp : created.probeOk = true)
    (h : ensureVirtualEnvironment tc ck created fs = Except.ok (fs', ws)) :
    ensureVirtualEnvironment tc ck created fs' = Except.ok (fs', []) := by
  have key : fs'.dirExists = true ∧
      ((fs'.interpExists && fs'.interpExecutable) && fs'.probeOk) = true := by
    unfold ensureVirtualEnvironment at h
    split at h
    · obtain ⟨he, hw, h1, h2⟩ := createVirtualEnvironment_ok tc ck created fs' ws h
      subst he
      exact ⟨hcd, by simp [h1, h2, hcp]⟩
    · rename_i hdir
      split at h
      · rename_i hvalid
        rw [Except.ok.injEq, Prod.mk.injEq] at h
        obtain ⟨hfs, _⟩ := h
        subst hfs
        refine ⟨?_, hvalid⟩
        cases hb : fs.dirExists
        · exact absurd hb hdir
        · rfl
      · rename_i hnotvalid
        cases hc : createVirtualEnvironment tc ck created with
        | error msg =>
          rw [hc] at h
          simp [Except.map] at h
        | ok p =>
          rw [hc] at h
          simp only [Except.map, Except.ok.injEq, Prod.mk.injEq] at h
          obtain ⟨hfsp, hwsp⟩ := h
          obtain ⟨he, hw, h1, h2⟩ :=
            createVirtualEnvironment_ok tc ck created p.1 p.2 (by rw [hc])
          refine ⟨?_, ?_⟩
          · rw [← hfsp, he, hcd]
          · rw [← hfsp, he]
            simp [h1, h2, hcp]
  unfold ensureVirtualEnvironment
  rw [if_neg (by rw [key.1]; simp), if_pos key.2]

/-- Claim C9 witness: the theorem applied after a first ensure that created
the environment from the absent state. -/
theorem ensure_idempotent_witness :
    ensureVirtualEnvironment true true freshVenv freshVenv = Except.ok (freshVenv, []) :=
  ensure_idempotent true true freshVenv
    { dirExists := false, interpExists := false, interpExecutable := false,
      pipOk := false, probeOk := false } freshVenv [VenvWrite.createVenv] rfl rfl rfl

theorem processFile_valid (f : ImgFile) (h : isValidImage f = true) :
    processFile f = some { data := f.base64Data, mimeType := mimeTypeOf f.path } := by
  unfold isValidImage at h
  rw [Bool.and_eq_true, Bool.and_eq_true] at h
  obtain ⟨⟨h1, h2⟩, h3⟩ := h
  unfold processFile
  rw [if_neg (by have := of_decide_eq_true h1; omega),
    if_neg (by simpa using h2), if_pos h3]

/-- Claim C8 (amended): when more than 3 files are discovered and the first
3 in discovery order are all valid, collectImages returns exactly those 3,
in discovery order, and logs a note naming the 3 shown and the total
discovered (the omitted count is the difference); when an invalid file sits
among the first 3, fewer than 3 artifacts are returned even if more than 3
valid files exist (see the counterexample). -/
theorem collect_cap_first3_valid (files : List ImgFile)
    (h3 : 3 < files.length)
    (hv : ∀ f ∈ files.take 3, isValidImage f = true) :
    (collectImages true files).images =
      (files.take 3).map (fun f => { data := f.base64Data, mimeType := mimeTypeOf f.path }) ∧
    (collectImages true files).images.length = 3 ∧
    (collectImages true files).logs =
      ["Note: Showing first 3 of " ++ toString files.length ++ " generated images"] := by
  cases files with
  | nil => simp at h3
  | cons a t1 =>
  cases t1 with
  | nil => simp at h3
  | cons b t2 =>
  cases t2 with
  | nil => simp at h3
  | cons c t3 =>
  cases t3 with
  | nil => simp at h3
  | cons d t4 =>
  have htake : (a :: b :: c :: d :: t4).take 3 = [a, b, c] := rfl
  have ha := processFile_valid a (hv a (by rw [htake]; simp))
  have hb := processFile_valid b (hv b (by rw [htake]; simp))
  have hc := processFile_valid c (hv c (by rw [htake]; simp))
  simp only [collectImages]
  rw [if_neg (by simp)]
  rw [if_pos (by simp)]
  refine ⟨?_, ?_, rfl⟩
  · rw [htake]
    simp [List.filterMap_cons, ha, hb, hc]
  · rw [htake]
    simp [List.filterMap_cons, ha, hb, hc]

/-- Claim C8 witness: five valid files yield exactly 3 artifacts and the
first-3-of-5 note (2 omitted). -/
theorem collect_cap_first3_valid_witness :
    (collectImages true demoFilesC).images.length = 3 ∧
    (collectImages true demoFilesC).logs =
      ["Note: Showing first 3 of 5 generated images"] ∧
    5 - 3 = 2 := by
  have hk := collect_cap_first3_valid demoFilesC (by decide) (by decide)
  refine ⟨hk.2.1, ?_, rfl⟩
  rw [hk.2.2]
  decide

theorem mem_unlinkTask (faults : String → Bool) (p : String) (fs : List FsEntry)
    (e : FsEntry) (h : e ∈ (unlinkTask faults p fs).1) : e ∈ fs := by
  unfold unlinkTask at h
  split at h
  · exact h
  · exact List.mem_of_mem_filter h

theorem mem_rmDirTask (faults : String → Bool) (dir : String) (fs : List FsEntry)
    (e : FsEntry) (h : e ∈ (rmDirTask faults dir fs).1) : e ∈ fs := by
  unfold rmDirTask at h
  split at h
  · exact h
  · exact List.mem_of_mem_filter h

theorem foldl_unlink_subset (faults : String → Bool) (olds : List FsEntry) :
    ∀ (fs : List FsEntry) (w : List String) (e : FsEntry),
      e ∈ (List.foldl (fun acc e2 =>
          ((unlinkTask faults e2.path acc.1).1, acc.2 ++ (unlinkTask faults e2.path acc.1).2))
        (fs, w) olds).1 → e ∈ fs := by
  induction olds with
  | nil =>
    intro fs w e h
    simpa using h
  | cons o t ih =>
    intro fs w e h
    rw [List.foldl_cons] at h
    exact mem_unlinkTask faults o.path fs e (ih _ _ e h)

theorem mem_sweepOrphans (faults : String → Bool) (workDir tempFile : String) (now : Nat)
    (scanFs applyFs : List FsEntry) (e : FsEntry)
    (h : e ∈ (sweepOrphans faults workDir tempFile now scanFs applyFs).1) : e ∈ applyFs := by
  unfold sweepOrphans at h
  exact foldl_unlink_subset faults _ applyFs [] e h

theorem mem_cleanupTempTask (faults : String → Bool) (tempFile : String)
    (snapshot applyFs : List FsEntry) (e : FsEntry)
    (h : e ∈ (cleanupTempTask faults tempFile snapshot applyFs).1) : e ∈ applyFs := by
  unfold cleanupTempTask at h
  split at h
  · exact mem_unlinkTask faults tempFile applyFs e h
  · exact h

theorem mem_cleanupImagesTask (faults : String → Bool) (imageDir : String)
    (snapshot applyFs : List FsEntry) (e : FsEntry)
    (h : e ∈ (cleanupImagesTask faults imageDir snapshot applyFs).1) : e ∈ applyFs := by
  unfold cleanupImagesTask at h
  split at h
  · exact mem_rmDirTask faults imageDir applyFs e h
  · exact h

theorem existsSync_false_of_subset (fs fs' : List FsEntry) (p : String)
    (hsub : ∀ e, e ∈ fs' → e ∈ fs) (h : existsSync fs p = false) :
    existsSync fs' p = false := by
  unfold existsSync at *
  rw [List.any_eq_false] at *
  intro e he
  exact h e (hsub e he)

theorem existsSync_filter_path_self (fs : List FsEntry) (p : String) :
    existsSync (fs.filter (fun e => !(e.path == p))) p = false := by
  unfold existsSync
  rw [List.any_eq_false]
  intro e he
  have h2 := (List.mem_filter.mp he).2
  simpa using h2

theorem existsSync_rm_self (faults : String → Bool) (dir : String) (fs : List FsEntry)
    (hfi : faults dir = false) :
    existsSync (rmDirTask faults dir fs).1 dir = false := by
  unfold rmDirTask
  rw [if_neg (by rw [hfi]; simp)]
  unfold existsSync
  rw [List.any_eq_false]
  intro e he
  have h2 := (List.mem_filter.mp he).2
  simp at h2
  simpa using h2.1

theorem existsSync_rm_under (faults : String → Bool) (dir : String) (fs : List FsEntry)
    (hfi : faults dir = false) (p : String) (hp : startsWithStr (dir ++ "/") p = true) :
    existsSync (rmDirTask faults dir fs).1 p = false := by
  unfold rmDirTask
  rw [if_neg (by rw [hfi]; simp)]
  unfold existsSync
  rw [List.any_eq_false]
  intro e he
  have h2 := (List.mem_filter.mp he).2
  simp at h2
  intro hcon
  have heq : e.path = p := eq_of_beq hcon
  rw [heq] at h2
  rw [hp] at h2
  cases h2.2

theorem cleanupTempTask_removes (faults : String → Bool) (tempFile : String)
    (fs : List FsEntry) (hft : faults tempFile = false) :
    existsSync (cleanupTempTask faults tempFile fs fs).1 tempFile = false := by
  unfold cleanupTempTask
  split
  · unfold unlinkTask
    rw [if_neg (by rw [hft]; simp)]
    exact existsSync_filter_path_self fs tempFile
  · rename_i hnot
    cases hb : existsSync fs tempFile
    · rfl
    · exact absurd hb hnot

/-- Claim C1: the finally block of executePython runs after every outcome
(success, non-zero exit, or timeout) and returns the pre-cleanup outcome
unchanged for every fault assignment, so a cleanup failure is never
escalated to the caller; each task is independently fault-tolerant — the
scratch file is gone whenever its own unlink does not fault, and the image
directory (with everything under it) is gone whenever its own removal does
not fault, irrespective of the other fault flags. -/
theorem executePython_cleanup_invariant (faults : String → Bool) (o : RunOutcome)
    (tempFile imageDir workDir : String) (now : Nat) (fs : List FsEntry) :
    (executePythonFinally faults o tempFile imageDir workDir now fs).1 = o ∧
    (faults tempFile = false →
      existsSync (executePythonFinally faults o tempFile imageDir workDir now fs).2.1
        tempFile = false) ∧
    (faults imageDir = false →
      existsSync (executePythonFinally faults o tempFile imageDir workDir now fs).2.1
        imageDir = false ∧
      (existsSync fs imageDir = true →
        ∀ p, startsWithStr (imageDir ++ "/") p = true →
          existsSync (executePythonFinally faults o tempFile imageDir workDir now fs).2.1
            p = false)) := by
  refine ⟨rfl, ?_, ?_⟩
  · intro hft
    have h1 := cleanupTempTask_removes faults tempFile fs hft
    have h2 : existsSync (cleanupImagesTask faults imageDir fs
        (cleanupTempTask faults tempFile fs fs).1).1 tempFile = false :=
      existsSync_false_of_subset _ _ _
        (fun e he => mem_cleanupImagesTask faults imageDir fs _ e he) h1
    exact existsSync_false_of_subset _ _ _
      (fun e he => mem_sweepOrphans faults workDir tempFile now fs _ e he) h2
  · intro hfi
    cases hb : existsSync fs imageDir
    · constructor
      · have h1 : existsSync (cleanupTempTask faults tempFile fs fs).1 imageDir = false :=
          existsSync_false_of_subset _ _ _
            (fun e he => mem_cleanupTempTask faults tempFile fs fs e he) hb
        have h2 : existsSync (cleanupImagesTask faults imageDir fs
            (cleanupTempTask faults tempFile fs fs).1).1 imageDir = false :=
          existsSync_false_of_subset _ _ _
            (fun e he => mem_cleanupImagesTask faults imageDir fs _ e he) h1
        exact existsSync_false_of_subset _ _ _
          (fun e he => mem_sweepOrphans faults workDir tempFile now fs _ e he) h2
      · intro hdir
        simp at hdir
    · have hs2self : existsSync (cleanupImagesTask faults imageDir fs
          (cleanupTempTask faults tempFile fs fs).1).1 imageDir = false := by
        unfold cleanupImagesTask
        rw [hb, if_pos rfl]
        exact existsSync_rm_self faults imageDir _ hfi
      constructor
      · exact existsSync_false_of_subset _ _ _
          (fun e he => mem_sweepOrphans faults workDir tempFile now fs _ e he) hs2self
      · intro hdir p hp
        have hs2p : existsSync (cleanupImagesTask faults imageDir fs
            (cleanupTempTask faults tempFile fs fs).1).1 p = false := by
          unfold cleanupImagesTask
          rw [hb, if_pos rfl]
          exact existsSync_rm_under faults imageDir _ hfi p hp
        exact existsSync_false_of_subset _ _ _
          (fun e he => mem_sweepOrphans faults workDir tempFile now fs _ e he) hs2p

/-- Claim C1 witness: the theorem applied to a concrete successful run in a
concrete workspace containing the scratch file, the image directory, and
one artifact, with no cleanup faults: the outcome is returned unchanged and
all three entries are gone. -/
theorem executePython_cleanup_invariant_witness :
    (executePythonFinally (fun _ => false) (RunOutcome.success "2\n" "")
      "ws/temp_5_abc.py" "ws/images" "ws" 0 demoFs).1 = RunOutcome.success "2\n" "" ∧
    existsSync (executePythonFinally (fun _ => false) (RunOutcome.success "2\n" "")
      "ws/temp_5_abc.py" "ws/images" "ws" 0 demoFs).2.1 "ws/temp_5_abc.py" = false ∧
    existsSync (executePythonFinally (fun _ => false) (RunOutcome.success "2\n" "")
      "ws/temp_5_abc.py" "ws/images" "ws" 0 demoFs).2.1 "ws/images" = false ∧
    existsSync (executePythonFinally (fun _ => false) (RunOutcome.success "2\n" "")
      "ws/temp_5_abc.py" "ws/images" "ws" 0 demoFs).2.1 "ws/images/plot_0.png" = false := by
  have hk := executePython_cleanup_invariant (fun _ => false)
    (RunOutcome.success "2\n" "") "ws/temp_5_abc.py" "ws/images" "ws" 0 demoFs
  exact ⟨hk.1, hk.2.1 rfl, (hk.2.2 rfl).1,
    (hk.2.2 rfl).2 (by decide) "ws/images/plot_0.png" (by decide)⟩
